import Mathlib

/-!
Verification of the booking-and-log service (`src/main.go`, the DB-backed
variant of `handleBooking` at lines 570-712) against its specification.

The handler is embedded as a pure function.  External effects are made
explicit:
* the three Mongo collections (`Bookings`, `Logs`, `service_centers`)
  become a `StoreState` record of lists;
* each fallible driver call (`Find`, `cursor.All`, the two `InsertOne`s
  and the mirror `UpdateOne`) gets a boolean outcome in `DbEffects`;
* `time.Now().Format("20060102")`, the RFC3339 timestamp and
  `rand.Intn(10000)` are passed in as parameters.

A service center's `bookings` array is stored by the Go code as
`[]interface{}` and only its length is ever read, so its elements are
modelled as `Unit`.
-/

namespace BookingService

/-- The nested `scheduledService` object of the incoming JSON body. -/
structure ReqScheduledService where
  isScheduled : Bool
  serviceCenterId : String
  dateTime : String
deriving DecidableEq, Repr

/-- `IncomingBookingRequest` from `src/main.go` (second variant). -/
structure IncomingBookingRequest where
  vehicleId : String
  confirmationCode : String
  status : String
  scheduledService : ReqScheduledService
deriving DecidableEq, Repr

/-- `ScheduledService` as stored inside a `DBBooking`. -/
structure ScheduledService where
  isScheduled : Bool
  serviceCenterId : String
  dateTime : String
deriving DecidableEq, Repr

/-- `DBBooking`: a document of the `Bookings` collection. -/
structure DBBooking where
  vehicleId : String
  confirmationCode : String
  status : String
  scheduledService : ScheduledService
  userId : String
deriving DecidableEq, Repr

/-- `LogData`: the `data` sub-document of a log entry. -/
structure LogData where
  confirmationCode : String
  status : String
  serviceCenterId : String
  scheduledAt : String
  isScheduled : Bool
  action : String
deriving DecidableEq, Repr

/-- `LogEntry`: a document of the `Logs` collection. -/
structure LogEntry where
  logId : String
  userId : String
  vehicleId : String
  timestamp : String
  logType : String
  data : LogData
deriving DecidableEq, Repr

/-- `ServiceCenterDBModel`: a document of the `service_centers` collection
in `auto_ai_db`.  `bookings` is `[]interface{}` in Go and only its length
is consumed, hence `List Unit`.  `capacity` is a Go `int`. -/
structure ServiceCenterDBModel where
  id : String
  name : String
  location : String
  capacity : Int
  bookings : List Unit
  isActive : Bool
deriving DecidableEq, Repr

/-- `len(center.Bookings)` in the Go code. -/
def centerLoad (c : ServiceCenterDBModel) : Nat :=
  c.bookings.length

/-- The three stores the handler touches. -/
structure StoreState where
  bookings : List DBBooking
  logs : List LogEntry
  centers : List ServiceCenterDBModel
deriving DecidableEq, Repr

/-- Outcomes of the fallible database calls, in the order the handler
makes them. -/
structure DbEffects where
  findCentersFails : Bool
  decodeCentersFails : Bool
  bookingInsertFails : Bool
  logInsertFails : Bool
  mirrorUpdateFails : Bool
deriving DecidableEq, Repr

/-- The JSON body of the 200 response at the end of `handleBooking`. -/
structure SuccessBody where
  bookingStatus : String
  generatedLogId : String
  assignedCenter : String
  message : String
deriving DecidableEq, Repr

/-- The HTTP responses `handleBooking` can produce after JSON binding. -/
inductive HttpResponse where
  | ok (body : SuccessBody)
  | badRequest (error : String)
  | notFound (error : String)
  | internalError (error : String)
deriving DecidableEq, Repr

/-- Result of one handler run: the response, the final store state, and
whether the `service_centers` directory was queried. -/
structure HandlerResult where
  response : HttpResponse
  state : StoreState
  directoryQueried : Bool
deriving DecidableEq, Repr

/-- One decimal digit character. -/
def digitChar (d : Nat) : Char :=
  match d with
  | 0 => '0'
  | 1 => '1'
  | 2 => '2'
  | 3 => '3'
  | 4 => '4'
  | 5 => '5'
  | 6 => '6'
  | 7 => '7'
  | 8 => '8'
  | _ => '9'

/-- Fuel-driven decimal rendering (the `%d` of `fmt.Sprintf`). -/
def decDigitsAux : Nat → Nat → List Char → List Char
  | 0, _, acc => acc
  | fuel + 1, n, acc =>
    if n < 10 then digitChar n :: acc
    else decDigitsAux fuel (n / 10) (digitChar (n % 10) :: acc)

/-- Decimal representation of a natural number. -/
def decRepr (n : Nat) : String :=
  ⟨decDigitsAux (n + 1) n []⟩

/-- The `%04d` verb: zero-pad the decimal representation to width 4. -/
def pad4 (n : Nat) : String :=
  if n < 10 then "000" ++ decRepr n
  else if n < 100 then "00" ++ decRepr n
  else if n < 1000 then "0" ++ decRepr n
  else decRepr n

/-- `fmt.Sprintf("LOG_%s_%04d", time.Now().Format("20060102"), randNum)`. -/
def mkLogId (dateStr : String) (randNum : Nat) : String :=
  "LOG_" ++ dateStr ++ "_" ++ pad4 randNum

/-- The primary selection loop of STEP 1: scan the centers keeping the
current best and the running minimum (initialised to the sentinel
`999999`), updating when `currentLoad < minBookings && currentLoad <
centers[i].Capacity`. -/
def primaryScanGo : List ServiceCenterDBModel → Option ServiceCenterDBModel → Nat →
    Option ServiceCenterDBModel
  | [], best, _ => best
  | c :: cs, best, minBookings =>
    if centerLoad c < minBookings ∧ (centerLoad c : Int) < c.capacity then
      primaryScanGo cs (some c) (centerLoad c)
    else
      primaryScanGo cs best minBookings

/-- The fallback loop: starting from `centers[0]`, keep the center with
strictly fewer bookings than the current best. -/
def fallbackScanGo : List ServiceCenterDBModel → ServiceCenterDBModel → ServiceCenterDBModel
  | [], best => best
  | c :: cs, best =>
    if centerLoad c < centerLoad best then fallbackScanGo cs c
    else fallbackScanGo cs best

/-- STEP 1's full selection on a non-empty center list: the primary scan,
then — exactly when it produced no center — the fallback scan seeded with
the first element. -/
def selectCenterNonempty (c0 : ServiceCenterDBModel) (rest : List ServiceCenterDBModel) :
    ServiceCenterDBModel :=
  match primaryScanGo (c0 :: rest) none 999999 with
  | some best => best
  | none => fallbackScanGo (c0 :: rest) c0

/-- Selection on an arbitrary list (the handler 404s first on `[]`). -/
def selectCenter : List ServiceCenterDBModel → Option ServiceCenterDBModel
  | [] => none
  | c0 :: rest => some (selectCenterNonempty c0 rest)

/-- STEP 2's `bookingToSave` value. -/
def mkBookingToSave (req : IncomingBookingRequest) (finalCenterID : String) : DBBooking :=
  { vehicleId := req.vehicleId
    confirmationCode := req.confirmationCode
    status := req.status
    scheduledService :=
      { isScheduled := req.scheduledService.isScheduled
        serviceCenterId := finalCenterID
        dateTime := req.scheduledService.dateTime }
    userId := "USR_" ++ req.vehicleId }

/-- STEP 3's `logEntry` value, with `Action` overwritten to
`AUTO_ASSIGNED_CREATED` when the center was auto-assigned. -/
def mkLogEntry (req : IncomingBookingRequest) (finalCenterID : String)
    (isAutoAssigned : Bool) (logID timestampStr : String) : LogEntry :=
  { logId := logID
    userId := "USR_" ++ req.vehicleId
    vehicleId := req.vehicleId
    timestamp := timestampStr
    logType := "BOOKING"
    data :=
      { confirmationCode := req.confirmationCode
        status := req.status
        serviceCenterId := finalCenterID
        scheduledAt := req.scheduledService.dateTime
        isScheduled := req.scheduledService.isScheduled
        action := if isAutoAssigned then "AUTO_ASSIGNED_CREATED" else "CREATED" } }

/-- STEP 4's mirror `UpdateOne` with `$push`: append one booking to the
`bookings` array of the first center whose `centerId` matches. -/
def pushBookingToCenter : List ServiceCenterDBModel → String → List ServiceCenterDBModel
  | [], _ => []
  | c :: cs, cid =>
    if c.id = cid then { c with bookings := c.bookings ++ [()] } :: cs
    else c :: pushBookingToCenter cs cid

/-- STEPs 2-4 and the final response: insert the booking (500 on
failure), insert the log entry (error ignored), spawn the mirror update,
respond 200. -/
def persistAndRespond (req : IncomingBookingRequest) (st : StoreState) (eff : DbEffects)
    (finalCenterID : String) (isAutoAssigned : Bool)
    (dateStr timestampStr : String) (randNum : Nat) (dirQueried : Bool) : HandlerResult :=
  if eff.bookingInsertFails then
    { response := .internalError "DB Save Failed", state := st, directoryQueried := dirQueried }
  else
    let bookingToSave := mkBookingToSave req finalCenterID
    let logID := mkLogId dateStr randNum
    let logEntry := mkLogEntry req finalCenterID isAutoAssigned logID timestampStr
    let st1 : StoreState := { st with bookings := st.bookings ++ [bookingToSave] }
    let st2 : StoreState :=
      if eff.logInsertFails then st1 else { st1 with logs := st1.logs ++ [logEntry] }
    let st3 : StoreState :=
      if eff.mirrorUpdateFails then st2
      else { st2 with centers := pushBookingToCenter st2.centers finalCenterID }
    { response := .ok
        { bookingStatus := "Confirmed"
          generatedLogId := logID
          assignedCenter := finalCenterID
          message := "Successfully saved" }
      state := st3
      directoryQueried := dirQueried }

/-- `handleBooking` (src/main.go lines 570-712), after JSON binding.
STEP 1: when the supplied `serviceCenterId` is empty or `"null"`, query
the active centers (`Find` with `is_active: true`), 500 on query or
decode failure, 404 on an empty result, otherwise run the selection;
then STEPs 2-4. -/
def handleBooking (req : IncomingBookingRequest) (st : StoreState) (eff : DbEffects)
    (dateStr timestampStr : String) (randNum : Nat) : HandlerResult :=
  let finalCenterID := req.scheduledService.serviceCenterId
  if finalCenterID = "" ∨ finalCenterID = "null" then
    if eff.findCentersFails then
      { response := .internalError "Failed to query service centers from DB"
        state := st, directoryQueried := true }
    else if eff.decodeCentersFails then
      { response := .internalError "Failed to decode service centers"
        state := st, directoryQueried := true }
    else
      match st.centers.filter (fun c => c.isActive) with
      | [] =>
        { response := .notFound "No active service centers found in database"
          state := st, directoryQueried := true }
      | c0 :: rest =>
        persistAndRespond req st eff (selectCenterNonempty c0 rest).id true
          dateStr timestampStr randNum true
  else
    persistAndRespond req st eff finalCenterID false dateStr timestampStr randNum false

/-!
Specification-side definitions, used to compare the code's selection
against the spec's wording and to characterise the scan loops.
-/

/-- Specification view of the primary scan loop: the first element whose
load is below the bound `m` and below its own capacity, among those
attaining the minimal such load (the bound tightens to the load of each
candidate accepted so far, mirroring the loop's running minimum). -/
def firstMinBelow : Nat → List ServiceCenterDBModel → Option ServiceCenterDBModel
  | _, [] => none
  | m, c :: cs =>
    if centerLoad c < m ∧ (centerLoad c : Int) < c.capacity then
      match firstMinBelow (centerLoad c) cs with
      | some d => some d
      | none => some c
    else firstMinBelow m cs

/-- First element of a list attaining the minimal load, ties broken by
first occurrence. -/
def firstMinLoad : List ServiceCenterDBModel → Option ServiceCenterDBModel
  | [] => none
  | c :: cs =>
    match firstMinLoad cs with
    | none => some c
    | some d => if centerLoad c ≤ centerLoad d then some c else some d

/-- The LeastLoad policy exactly as the spec words it: choose the
candidate with the fewest current bookings, skipping any candidate whose
id is empty, ties broken by first occurrence in input order. -/
def specLeastLoad (l : List ServiceCenterDBModel) : Option ServiceCenterDBModel :=
  firstMinLoad (l.filter (fun c => !decide (c.id = "")))

/-- Claim C9's reading of the primary loop: the first candidate with
`len(bookings) < capacity` attaining the minimal load among such
candidates, with no sentinel bound. -/
def specPrimaryUnderCap (l : List ServiceCenterDBModel) : Option ServiceCenterDBModel :=
  firstMinLoad (l.filter (fun c => decide ((centerLoad c : Int) < c.capacity)))

/-!
Characterisation of the two selection loops.
-/

theorem primaryScanGo_eq_firstMinBelow (l : List ServiceCenterDBModel)
    (best : Option ServiceCenterDBModel) (m : Nat) :
    primaryScanGo l best m =
      match firstMinBelow m l with
      | some d => some d
      | none => best := by
  induction l generalizing best m with
  | nil => simp [primaryScanGo, firstMinBelow]
  | cons c cs ih =>
    by_cases h : centerLoad c < m ∧ (centerLoad c : Int) < c.capacity
    · simp only [primaryScanGo, firstMinBelow, if_pos h, ih]
      cases hcs : firstMinBelow (centerLoad c) cs <;> simp
    · simp only [primaryScanGo, firstMinBelow, if_neg h, ih]

theorem firstMinBelow_mem {m : Nat} {l : List ServiceCenterDBModel}
    {c : ServiceCenterDBModel} (h : firstMinBelow m l = some c) :
    c ∈ l ∧ centerLoad c < m ∧ (centerLoad c : Int) < c.capacity := by
  induction l generalizing m with
  | nil => simp [firstMinBelow] at h
  | cons a cs ih =>
    by_cases ha : centerLoad a < m ∧ (centerLoad a : Int) < a.capacity
    · rw [firstMinBelow, if_pos ha] at h
      cases hcs : firstMinBelow (centerLoad a) cs with
      | none => rw [hcs] at h; simp at h; subst h; exact ⟨List.mem_cons_self _ _, ha⟩
      | some d =>
        rw [hcs] at h; simp at h; subst h
        obtain ⟨hm, hlt, hcap⟩ := ih hcs
        exact ⟨List.mem_cons_of_mem _ hm, lt_trans hlt ha.1, hcap⟩
    · rw [firstMinBelow, if_neg ha] at h
      obtain ⟨hm, hlt, hcap⟩ := ih h
      exact ⟨List.mem_cons_of_mem _ hm, hlt, hcap⟩

theorem firstMinBelow_eq_none {m : Nat} {l : List ServiceCenterDBModel} :
    firstMinBelow m l = none ↔
      ∀ c ∈ l, ¬(centerLoad c < m ∧ (centerLoad c : Int) < c.capacity) := by
  induction l generalizing m with
  | nil => simp [firstMinBelow]
  | cons a cs ih =>
    by_cases ha : centerLoad a < m ∧ (centerLoad a : Int) < a.capacity
    · rw [firstMinBelow, if_pos ha]
      constructor
      · intro h
        cases hcs : firstMinBelow (centerLoad a) cs <;> rw [hcs] at h <;> simp at h
      · intro h
        exact absurd ha (h a (List.mem_cons_self _ _))
    · rw [firstMinBelow, if_neg ha]
      constructor
      · intro h c hc
        rcases List.mem_cons.mp hc with rfl | hc
        · exact ha
        · exact ih.mp h c hc
      · intro h
        exact ih.mpr (fun c hc => h c (List.mem_cons_of_mem _ hc))

theorem firstMinBelow_min {m : Nat} {l : List ServiceCenterDBModel}
    {c : ServiceCenterDBModel} (h : firstMinBelow m l = some c) :
    ∀ d ∈ l, centerLoad d < m → (centerLoad d : Int) < d.capacity →
      centerLoad c ≤ centerLoad d := by
  induction l generalizing m with
  | nil => simp [firstMinBelow] at h
  | cons a cs ih =>
    by_cases ha : centerLoad a < m ∧ (centerLoad a : Int) < a.capacity
    · rw [firstMinBelow, if_pos ha] at h
      cases hcs : firstMinBelow (centerLoad a) cs with
      | none =>
        rw [hcs] at h; simp at h; subst h
        intro d hd hdm hdc
        rcases List.mem_cons.mp hd with rfl | hd
        · exact le_refl _
        · have := firstMinBelow_eq_none.mp hcs d hd
          by_contra hlt
          push_neg at hlt
          exact this ⟨hlt, hdc⟩
      | some e =>
        rw [hcs] at h; simp at h; subst h
        have hcmem := firstMinBelow_mem hcs
        intro d hd hdm hdc
        rcases List.mem_cons.mp hd with rfl | hd
        · exact le_of_lt hcmem.2.1
        · by_cases hdlt : centerLoad d < centerLoad a
          · exact ih hcs d hd hdlt hdc
          · push_neg at hdlt
            exact le_trans (le_of_lt hcmem.2.1) hdlt
    · rw [firstMinBelow, if_neg ha] at h
      intro d hd hdm hdc
      rcases List.mem_cons.mp hd with rfl | hd
      · exact absurd ⟨hdm, hdc⟩ ha
      · exact ih h d hd hdm hdc

theorem firstMinBelow_first {m : Nat} {l : List ServiceCenterDBModel}
    {c : ServiceCenterDBModel} (h : firstMinBelow m l = some c) :
    ∃ l1 l2, l = l1 ++ c :: l2 ∧
      ∀ d ∈ l1, centerLoad d < m → (centerLoad d : Int) < d.capacity →
        centerLoad c < centerLoad d := by
  induction l generalizing m with
  | nil => simp [firstMinBelow] at h
  | cons a cs ih =>
    by_cases ha : centerLoad a < m ∧ (centerLoad a : Int) < a.capacity
    · rw [firstMinBelow, if_pos ha] at h
      cases hcs : firstMinBelow (centerLoad a) cs with
      | none =>
        rw [hcs] at h; simp at h; subst h
        exact ⟨[], cs, rfl, by simp⟩
      | some e =>
        rw [hcs] at h; simp at h; subst h
        obtain ⟨l1, l2, heq, hfirst⟩ := ih hcs
        have hcmem := firstMinBelow_mem hcs
        refine ⟨a :: l1, l2, by rw [heq]; rfl, ?_⟩
        intro d hd hdm hdc
        rcases List.mem_cons.mp hd with rfl | hd
        · exact hcmem.2.1
        · by_cases hdlt : centerLoad d < centerLoad a
          · exact hfirst d hd hdlt hdc
          · push_neg at hdlt
            exact lt_of_lt_of_le hcmem.2.1 hdlt
    · rw [firstMinBelow, if_neg ha] at h
      obtain ⟨l1, l2, heq, hfirst⟩ := ih h
      refine ⟨a :: l1, l2, by rw [heq]; rfl, ?_⟩
      intro d hd hdm hdc
      rcases List.mem_cons.mp hd with rfl | hd
      · exact absurd ⟨hdm, hdc⟩ ha
      · exact hfirst d hd hdm hdc

theorem fallbackScanGo_spec (l : List ServiceCenterDBModel) (b : ServiceCenterDBModel) :
    fallbackScanGo l b ∈ b :: l ∧
    (∀ d ∈ b :: l, centerLoad (fallbackScanGo l b) ≤ centerLoad d) ∧
    ∃ l1 l2, b :: l = l1 ++ fallbackScanGo l b :: l2 ∧
      ∀ d ∈ l1, centerLoad (fallbackScanGo l b) < centerLoad d := by
  induction l generalizing b with
  | nil =>
    refine ⟨List.mem_cons_self _ _, ?_, [], [], rfl, by simp⟩
    intro d hd
    rcases List.mem_cons.mp hd with rfl | hd
    · exact le_refl _
    · simp at hd
  | cons c cs ih =>
    by_cases hlt : centerLoad c < centerLoad b
    · rw [fallbackScanGo, if_pos hlt]
      obtain ⟨hmem, hmin, l1, l2, heq, hfirst⟩ := ih c
      have hrc : centerLoad (fallbackScanGo cs c) ≤ centerLoad c :=
        hmin c (List.mem_cons_self _ _)
      refine ⟨List.mem_cons_of_mem _ hmem, ?_, b :: l1, l2, ?_, ?_⟩
      · intro d hd
        rcases List.mem_cons.mp hd with rfl | hd
        · exact le_trans hrc (le_of_lt hlt)
        · exact hmin d hd
      · rw [List.cons_append, ← heq]
      · intro d hd
        rcases List.mem_cons.mp hd with rfl | hd
        · exact lt_of_le_of_lt hrc hlt
        · exact hfirst d hd
    · push_neg at hlt
      rw [fallbackScanGo, if_neg (not_lt.mpr hlt)]
      obtain ⟨hmem, hmin, l1, l2, heq, hfirst⟩ := ih b
      have hrb : centerLoad (fallbackScanGo cs b) ≤ centerLoad b :=
        hmin b (List.mem_cons_self _ _)
      refine ⟨?_, ?_, ?_⟩
      · rcases List.mem_cons.mp hmem with hb | hcs
        · rw [hb]; exact List.mem_cons_self _ _
        · exact List.mem_cons_of_mem _ (List.mem_cons_of_mem _ hcs)
      · intro d hd
        rcases List.mem_cons.mp hd with rfl | hd
        · exact hrb
        rcases List.mem_cons.mp hd with rfl | hd
        · exact le_trans hrb hlt
        · exact hmin d (List.mem_cons_of_mem _ hd)
      · cases l1 with
        | nil =>
          simp only [List.nil_append] at heq
          have hb : fallbackScanGo cs b = b := (List.cons.injEq _ _ _ _).mp heq |>.1.symm
          exact ⟨[], c :: cs, by rw [hb]; rfl, by simp⟩
        | cons x l1t =>
          have hx : b = x ∧ cs = l1t ++ fallbackScanGo cs b :: l2 := by
            have := heq
            rw [List.cons_append] at this
            exact ⟨((List.cons.injEq _ _ _ _).mp this).1, ((List.cons.injEq _ _ _ _).mp this).2⟩
          refine ⟨b :: c :: l1t, l2, ?_, ?_⟩
          · rw [List.cons_append, List.cons_append, ← hx.2]
          · intro d hd
            have hbl1 : b ∈ x :: l1t := by rw [← hx.1]; exact List.mem_cons_self _ _
            rcases List.mem_cons.mp hd with rfl | hd
            · exact hfirst d hbl1
            rcases List.mem_cons.mp hd with rfl | hd
            · exact lt_of_lt_of_le (hfirst b hbl1) hlt
            · exact hfirst d (List.mem_cons_of_mem _ hd)

theorem selectCenterNonempty_primary {c0 : ServiceCenterDBModel}
    {rest : List ServiceCenterDBModel} {c : ServiceCenterDBModel}
    (h : primaryScanGo (c0 :: rest) none 999999 = some c) :
    selectCenterNonempty c0 rest = c := by
  simp [selectCenterNonempty, h]

theorem selectCenterNonempty_fallback {c0 : ServiceCenterDBModel}
    {rest : List ServiceCenterDBModel}
    (h : primaryScanGo (c0 :: rest) none 999999 = none) :
    selectCenterNonempty c0 rest = fallbackScanGo rest c0 := by
  simp only [selectCenterNonempty, h]
  rw [fallbackScanGo, if_neg (lt_irrefl _)]

theorem primaryScanGo_none_eq (l : List ServiceCenterDBModel) :
    primaryScanGo l none 999999 = firstMinBelow 999999 l := by
  rw [primaryScanGo_eq_firstMinBelow]
  cases firstMinBelow 999999 l <;> rfl

/-!
The log-id format.
-/

theorem digitChar_isDigit (d : Nat) : (digitChar d).isDigit = true := by
  unfold digitChar
  rcases d with _ | _ | _ | _ | _ | _ | _ | _ | _ | d <;> rfl

theorem decDigitsAux_small {f n : Nat} (acc : List Char) (hf : 0 < f) (hn : n < 10) :
    decDigitsAux f n acc = digitChar n :: acc := by
  cases f with
  | zero => omega
  | succ f => rw [decDigitsAux, if_pos hn]

theorem decDigitsAux_step (f : Nat) {n : Nat} (acc : List Char) (hn : 10 ≤ n) :
    decDigitsAux (f + 1) n acc = decDigitsAux f (n / 10) (digitChar (n % 10) :: acc) := by
  rw [decDigitsAux, if_neg (by omega)]

theorem decRepr_data_1 {n : Nat} (hn : n < 10) :
    (decRepr n).data = [digitChar n] := by
  show decDigitsAux (n + 1) n [] = _
  rw [decDigitsAux_small [] (by omega) hn]

theorem decRepr_data_2 {n : Nat} (h1 : 10 ≤ n) (h2 : n < 100) :
    (decRepr n).data = [digitChar (n / 10), digitChar (n % 10)] := by
  show decDigitsAux (n + 1) n [] = _
  rw [decDigitsAux_step n [] h1, decDigitsAux_small _ (by omega) (by omega)]

theorem decRepr_data_3 {n : Nat} (h1 : 100 ≤ n) (h2 : n < 1000) :
    (decRepr n).data = [digitChar (n / 100), digitChar (n / 10 % 10), digitChar (n % 10)] := by
  show decDigitsAux (n + 1) n [] = _
  rw [decDigitsAux_step n [] (by omega)]
  obtain ⟨f, rfl⟩ : ∃ f, n = f + 1 := ⟨n - 1, by omega⟩
  rw [decDigitsAux_step f _ (by omega)]
  rw [decDigitsAux_small _ (by omega) (by omega)]
  rw [Nat.div_div_eq_div_mul]

theorem decRepr_data_4 {n : Nat} (h1 : 1000 ≤ n) (h2 : n < 10000) :
    (decRepr n).data =
      [digitChar (n / 1000), digitChar (n / 100 % 10),
       digitChar (n / 10 % 10), digitChar (n % 10)] := by
  show decDigitsAux (n + 1) n [] = _
  rw [decDigitsAux_step n [] (by omega)]
  obtain ⟨f, hf⟩ : ∃ f, n = f + 1 := ⟨n - 1, by omega⟩
  rw [hf, decDigitsAux_step f _ (by omega)]
  obtain ⟨g, hg⟩ : ∃ g, f = g + 1 := ⟨f - 1, by omega⟩
  rw [hg, decDigitsAux_step g _ (by omega)]
  rw [decDigitsAux_small _ (by omega) (by omega)]
  rw [Nat.div_div_eq_div_mul, Nat.div_div_eq_div_mul, Nat.div_div_eq_div_mul]

theorem pad4_data_eq {n : Nat} (hn : n < 10000) :
    (pad4 n).data =
      if n < 10 then ['0', '0', '0', digitChar n]
      else if n < 100 then ['0', '0', digitChar (n / 10), digitChar (n % 10)]
      else if n < 1000 then
        ['0', digitChar (n / 100), digitChar (n / 10 % 10), digitChar (n % 10)]
      else
        [digitChar (n / 1000), digitChar (n / 100 % 10),
         digitChar (n / 10 % 10), digitChar (n % 10)] := by
  unfold pad4
  by_cases h1 : n < 10
  · rw [if_pos h1, if_pos h1]
    show "000".data ++ (decRepr n).data = _
    rw [decRepr_data_1 h1]
    rfl
  · rw [if_neg h1, if_neg h1]
    by_cases h2 : n < 100
    · rw [if_pos h2, if_pos h2]
      show "00".data ++ (decRepr n).data = _
      rw [decRepr_data_2 (by omega) h2]
      rfl
    · rw [if_neg h2, if_neg h2]
      by_cases h3 : n < 1000
      · rw [if_pos h3, if_pos h3]
        show "0".data ++ (decRepr n).data = _
        rw [decRepr_data_3 (by omega) h3]
        rfl
      · rw [if_neg h3, if_neg h3]
        exact decRepr_data_4 (by omega) hn

theorem pad4_spec {n : Nat} (hn : n < 10000) :
    (pad4 n).length = 4 ∧ ∀ ch ∈ (pad4 n).data, ch.isDigit = true := by
  have hdata := pad4_data_eq hn
  constructor
  · show (pad4 n).data.length = 4
    rw [hdata]
    split <;> try rfl
    split <;> try rfl
    split <;> rfl
  · intro ch hch
    rw [hdata] at hch
    have hz : ('0').isDigit = true := rfl
    split at hch <;> [skip; split at hch] <;> [skip; skip; split at hch] <;>
      simp only [List.mem_cons, List.not_mem_nil, or_false] at hch <;>
      rcases hch with rfl | rfl | rfl | rfl <;>
      first | exact hz | apply digitChar_isDigit

/-!
Handler branch lemmas.
-/

theorem persistAndRespond_insertFail {eff : DbEffects} (h : eff.bookingInsertFails = true)
    (req : IncomingBookingRequest) (st : StoreState) (fid : String) (auto : Bool)
    (d t : String) (r : Nat) (dq : Bool) :
    persistAndRespond req st eff fid auto d t r dq =
      { response := .internalError "DB Save Failed", state := st, directoryQueried := dq } := by
  simp [persistAndRespond, h]

theorem persistAndRespond_ok {eff : DbEffects} (h : eff.bookingInsertFails = false)
    (req : IncomingBookingRequest) (st : StoreState) (fid : String) (auto : Bool)
    (d t : String) (r : Nat) (dq : Bool) :
    persistAndRespond req st eff fid auto d t r dq =
      { response := .ok
          { bookingStatus := "Confirmed", generatedLogId := mkLogId d r,
            assignedCenter := fid, message := "Successfully saved" }
        state :=
          { bookings := st.bookings ++ [mkBookingToSave req fid]
            logs := if eff.logInsertFails then st.logs
                    else st.logs ++ [mkLogEntry req fid auto (mkLogId d r) t]
            centers := if eff.mirrorUpdateFails then st.centers
                       else pushBookingToCenter st.centers fid }
        directoryQueried := dq } := by
  by_cases hl : eff.logInsertFails <;> by_cases hm : eff.mirrorUpdateFails <;>
    simp [persistAndRespond, h, hl, hm]

theorem handleBooking_explicit (req : IncomingBookingRequest) (st : StoreState)
    (eff : DbEffects) (d t : String) (r : Nat)
    (h1 : req.scheduledService.serviceCenterId ≠ "")
    (h2 : req.scheduledService.serviceCenterId ≠ "null") :
    handleBooking req st eff d t r =
      persistAndRespond req st eff req.scheduledService.serviceCenterId false d t r false := by
  simp only [handleBooking]
  rw [if_neg (not_or.mpr ⟨h1, h2⟩)]

theorem handleBooking_auto (req : IncomingBookingRequest) (st : StoreState)
    (eff : DbEffects) (d t : String) (r : Nat)
    (h : req.scheduledService.serviceCenterId = "" ∨ req.scheduledService.serviceCenterId = "null")
    (hf : eff.findCentersFails = false) (hd : eff.decodeCentersFails = false)
    {c0 : ServiceCenterDBModel} {rest : List ServiceCenterDBModel}
    (hl : st.centers.filter (fun c => c.isActive) = c0 :: rest) :
    handleBooking req st eff d t r =
      persistAndRespond req st eff (selectCenterNonempty c0 rest).id true d t r true := by
  simp only [handleBooking]
  rw [if_pos h]
  simp only [hf, hd, Bool.false_eq_true, if_false, hl]

theorem handleBooking_auto_empty (req : IncomingBookingRequest) (st : StoreState)
    (eff : DbEffects) (d t : String) (r : Nat)
    (h : req.scheduledService.serviceCenterId = "" ∨ req.scheduledService.serviceCenterId = "null")
    (hf : eff.findCentersFails = false) (hd : eff.decodeCentersFails = false)
    (hl : st.centers.filter (fun c => c.isActive) = []) :
    handleBooking req st eff d t r =
      { response := .notFound "No active service centers found in database"
        state := st, directoryQueried := true } := by
  simp only [handleBooking]
  rw [if_pos h]
  simp only [hf, hd, Bool.false_eq_true, if_false, hl]

theorem persistAndRespond_response (req : IncomingBookingRequest) (st : StoreState)
    (eff : DbEffects) (fid : String) (auto : Bool) (d t : String) (r : Nat) (dq : Bool) :
    (persistAndRespond req st eff fid auto d t r dq).response =
      if eff.bookingInsertFails then .internalError "DB Save Failed"
      else .ok
        { bookingStatus := "Confirmed", generatedLogId := mkLogId d r,
          assignedCenter := fid, message := "Successfully saved" } := by
  cases hb : eff.bookingInsertFails
  · rw [persistAndRespond_ok hb]
    simp
  · rw [persistAndRespond_insertFail hb]
    simp

/-!
Claim theorems.
-/

/-- C3: for every request whose `scheduledService.serviceCenterId` is
non-empty and not the literal string `"null"`, the center directory and
assignment selector are never invoked, and the response field
`assignedCenter` equals the supplied `serviceCenterId` exactly. -/
theorem C3_explicit_center_bypasses_directory
    (req : IncomingBookingRequest) (st : StoreState) (eff : DbEffects)
    (d t : String) (r : Nat)
    (h1 : req.scheduledService.serviceCenterId ≠ "")
    (h2 : req.scheduledService.serviceCenterId ≠ "null") :
    (handleBooking req st eff d t r).directoryQueried = false ∧
    ∀ body, (handleBooking req st eff d t r).response = .ok body →
      body.assignedCenter = req.scheduledService.serviceCenterId := by
  rw [handleBooking_explicit req st eff d t r h1 h2]
  cases hb : eff.bookingInsertFails
  · rw [persistAndRespond_ok hb]
    refine ⟨rfl, ?_⟩
    intro body hbody
    cases hbody
    rfl
  · rw [persistAndRespond_insertFail hb]
    exact ⟨rfl, fun body hbody => by cases hbody⟩

/-- Witness for C3 at a concrete explicit-center request. -/
theorem C3_witness :
    ((("CENTER_7" : String) ≠ "") ∧ (("CENTER_7" : String) ≠ "null")) ∧
    ((handleBooking ⟨"CAR_1", "CC1", "PENDING", ⟨true, "CENTER_7", "2025-01-01T10:00:00Z"⟩⟩
        ⟨[], [], []⟩ ⟨false, false, false, false, false⟩ "20250101" "TS" 7).directoryQueried
        = false ∧
     ∀ body,
       (handleBooking ⟨"CAR_1", "CC1", "PENDING", ⟨true, "CENTER_7", "2025-01-01T10:00:00Z"⟩⟩
         ⟨[], [], []⟩ ⟨false, false, false, false, false⟩ "20250101" "TS" 7).response
         = .ok body →
       body.assignedCenter = "CENTER_7") :=
  ⟨⟨by decide, by decide⟩,
   C3_explicit_center_bypasses_directory
     ⟨"CAR_1", "CC1", "PENDING", ⟨true, "CENTER_7", "2025-01-01T10:00:00Z"⟩⟩
     ⟨[], [], []⟩ ⟨false, false, false, false, false⟩ "20250101" "TS" 7
     (by decide) (by decide)⟩

/-- C5: if the booking-store insert fails, the request terminates with a
500 response and no log or mirror write happens: the whole store state is
unchanged. -/
theorem C5_insert_failure_aborts
    (req : IncomingBookingRequest) (st : StoreState) (eff : DbEffects)
    (d t : String) (r : Nat)
    (hfail : eff.bookingInsertFails = true)
    (hreach :
      (req.scheduledService.serviceCenterId ≠ "" ∧
       req.scheduledService.serviceCenterId ≠ "null") ∨
      ((req.scheduledService.serviceCenterId = "" ∨
        req.scheduledService.serviceCenterId = "null") ∧
       eff.findCentersFails = false ∧ eff.decodeCentersFails = false ∧
       st.centers.filter (fun c => c.isActive) ≠ [])) :
    (handleBooking req st eff d t r).response = .internalError "DB Save Failed" ∧
    (handleBooking req st eff d t r).state = st := by
  rcases hreach with ⟨h1, h2⟩ | ⟨h, hf, hd, hne⟩
  · rw [handleBooking_explicit req st eff d t r h1 h2, persistAndRespond_insertFail hfail]
    exact ⟨rfl, rfl⟩
  · obtain ⟨c0, rest, hl⟩ : ∃ c0 rest, st.centers.filter (fun c => c.isActive) = c0 :: rest := by
      cases hcl : st.centers.filter (fun c => c.isActive) with
      | nil => exact absurd hcl hne
      | cons a b => exact ⟨a, b, rfl⟩
    rw [handleBooking_auto req st eff d t r h hf hd hl, persistAndRespond_insertFail hfail]
    exact ⟨rfl, rfl⟩

/-- Witness for C5 at a concrete request whose booking insert fails. -/
theorem C5_witness :
    ((⟨false, false, true, false, false⟩ : DbEffects).bookingInsertFails = true ∧
     (("CENTER_7" : String) ≠ "" ∧ ("CENTER_7" : String) ≠ "null")) ∧
    ((handleBooking ⟨"CAR_1", "CC1", "PENDING", ⟨true, "CENTER_7", "2025-01-01T10:00:00Z"⟩⟩
        ⟨[], [], []⟩ ⟨false, false, true, false, false⟩ "20250101" "TS" 7).response
        = .internalError "DB Save Failed" ∧
     (handleBooking ⟨"CAR_1", "CC1", "PENDING", ⟨true, "CENTER_7", "2025-01-01T10:00:00Z"⟩⟩
        ⟨[], [], []⟩ ⟨false, false, true, false, false⟩ "20250101" "TS" 7).state
        = ⟨[], [], []⟩) :=
  ⟨⟨by decide, by decide, by decide⟩,
   C5_insert_failure_aborts
     ⟨"CAR_1", "CC1", "PENDING", ⟨true, "CENTER_7", "2025-01-01T10:00:00Z"⟩⟩
     ⟨[], [], []⟩ ⟨false, false, true, false, false⟩ "20250101" "TS" 7
     (by decide) (Or.inl ⟨by decide, by decide⟩)⟩

/-- C6: if the booking write succeeds but the log-entry write fails, the
failure is swallowed: the caller still receives the 200 success response,
and the HTTP outcome never depends on the log-write outcome. -/
theorem C6_log_failure_swallowed
    (req : IncomingBookingRequest) (st : StoreState) (eff : DbEffects)
    (d t : String) (r : Nat)
    (hreach :
      (req.scheduledService.serviceCenterId ≠ "" ∧
       req.scheduledService.serviceCenterId ≠ "null") ∨
      ((req.scheduledService.serviceCenterId = "" ∨
        req.scheduledService.serviceCenterId = "null") ∧
       eff.findCentersFails = false ∧ eff.decodeCentersFails = false ∧
       st.centers.filter (fun c => c.isActive) ≠ []))
    (hins : eff.bookingInsertFails = false)
    (_hlog : eff.logInsertFails = true) :
    (∃ body, (handleBooking req st eff d t r).response = .ok body) ∧
    ∀ b : Bool,
      (handleBooking req st { eff with logInsertFails := b } d t r).response =
        (handleBooking req st eff d t r).response := by
  rcases hreach with ⟨h1, h2⟩ | ⟨h, hf, hd, hne⟩
  · constructor
    · rw [handleBooking_explicit req st eff d t r h1 h2, persistAndRespond_ok hins]
      exact ⟨_, rfl⟩
    · intro b
      rw [handleBooking_explicit req st eff d t r h1 h2,
          handleBooking_explicit req st { eff with logInsertFails := b } d t r h1 h2,
          persistAndRespond_response, persistAndRespond_response]
  · obtain ⟨c0, rest, hl⟩ : ∃ c0 rest, st.centers.filter (fun c => c.isActive) = c0 :: rest := by
      cases hcl : st.centers.filter (fun c => c.isActive) with
      | nil => exact absurd hcl hne
      | cons a b => exact ⟨a, b, rfl⟩
    constructor
    · rw [handleBooking_auto req st eff d t r h hf hd hl, persistAndRespond_ok hins]
      exact ⟨_, rfl⟩
    · intro b
      rw [handleBooking_auto req st eff d t r h hf hd hl,
          handleBooking_auto req st { eff with logInsertFails := b } d t r h hf hd hl,
          persistAndRespond_response, persistAndRespond_response]

/-- Witness for C6 at a concrete request whose log insert fails. -/
theorem C6_witness :
    ((("CENTER_7" : String) ≠ "" ∧ ("CENTER_7" : String) ≠ "null") ∧
     (⟨false, false, false, true, false⟩ : DbEffects).bookingInsertFails = false ∧
     (⟨false, false, false, true, false⟩ : DbEffects).logInsertFails = true) ∧
    ((∃ body,
       (handleBooking ⟨"CAR_6", "CC6", "PENDING", ⟨true, "CENTER_7", "2025-01-06T10:00:00Z"⟩⟩
         ⟨[], [], []⟩ ⟨false, false, false, true, false⟩ "20250101" "TS" 7).response
         = .ok body) ∧
     ∀ b : Bool,
       (handleBooking ⟨"CAR_6", "CC6", "PENDING", ⟨true, "CENTER_7", "2025-01-06T10:00:00Z"⟩⟩
         ⟨[], [], []⟩
         { (⟨false, false, false, true, false⟩ : DbEffects) with logInsertFails := b }
         "20250101" "TS" 7).response =
       (handleBooking ⟨"CAR_6", "CC6", "PENDING", ⟨true, "CENTER_7", "2025-01-06T10:00:00Z"⟩⟩
         ⟨[], [], []⟩ ⟨false, false, false, true, false⟩ "20250101" "TS" 7).response) :=
  ⟨⟨⟨by decide, by decide⟩, by decide, by decide⟩,
   C6_log_failure_swallowed
     ⟨"CAR_6", "CC6", "PENDING", ⟨true, "CENTER_7", "2025-01-06T10:00:00Z"⟩⟩
     ⟨[], [], []⟩ ⟨false, false, false, true, false⟩ "20250101" "TS" 7
     (Or.inl ⟨by decide, by decide⟩) (by decide) (by decide)⟩

/-- C7: for every successfully persisted booking request the appended log
entry's action tag comes from the closed set
{CREATED, AUTO_ASSIGNED_CREATED, UPDATED_SCHEDULE}: `CREATED` when the
caller supplied an explicit center, `AUTO_ASSIGNED_CREATED` when the
center was auto-assigned; the handler only ever appends (it never updates
a booking in place), so the `UPDATED_SCHEDULE` case never arises. -/
theorem C7_log_action_cases
    (req : IncomingBookingRequest) (st : StoreState) (eff : DbEffects)
    (d t : String) (r : Nat)
    (hreach :
      (req.scheduledService.serviceCenterId ≠ "" ∧
       req.scheduledService.serviceCenterId ≠ "null") ∨
      ((req.scheduledService.serviceCenterId = "" ∨
        req.scheduledService.serviceCenterId = "null") ∧
       eff.findCentersFails = false ∧ eff.decodeCentersFails = false ∧
       st.centers.filter (fun c => c.isActive) ≠ []))
    (hins : eff.bookingInsertFails = false)
    (hlog : eff.logInsertFails = false) :
    ∃ fid auto,
      (handleBooking req st eff d t r).state.logs
        = st.logs ++ [mkLogEntry req fid auto (mkLogId d r) t] ∧
      (mkLogEntry req fid auto (mkLogId d r) t).data.action
        ∈ (["CREATED", "AUTO_ASSIGNED_CREATED", "UPDATED_SCHEDULE"] : List String) ∧
      ((req.scheduledService.serviceCenterId ≠ "" ∧
        req.scheduledService.serviceCenterId ≠ "null") →
        (mkLogEntry req fid auto (mkLogId d r) t).data.action = "CREATED") ∧
      ((req.scheduledService.serviceCenterId = "" ∨
        req.scheduledService.serviceCenterId = "null") →
        (mkLogEntry req fid auto (mkLogId d r) t).data.action = "AUTO_ASSIGNED_CREATED") ∧
      (handleBooking req st eff d t r).state.bookings
        = st.bookings ++ [mkBookingToSave req fid] := by
  rcases hreach with ⟨h1, h2⟩ | ⟨h, hf, hd, hne⟩
  · rw [handleBooking_explicit req st eff d t r h1 h2, persistAndRespond_ok hins]
    refine ⟨req.scheduledService.serviceCenterId, false, ?_, ?_, ?_, ?_, ?_⟩
    · simp [hlog]
    · simp [mkLogEntry]
    · intro _
      rfl
    · intro hcontra
      rcases hcontra with hc | hc
      · exact absurd hc h1
      · exact absurd hc h2
    · rfl
  · obtain ⟨c0, rest, hl⟩ : ∃ c0 rest, st.centers.filter (fun c => c.isActive) = c0 :: rest := by
      cases hcl : st.centers.filter (fun c => c.isActive) with
      | nil => exact absurd hcl hne
      | cons a b => exact ⟨a, b, rfl⟩
    rw [handleBooking_auto req st eff d t r h hf hd hl, persistAndRespond_ok hins]
    refine ⟨(selectCenterNonempty c0 rest).id, true, ?_, ?_, ?_, ?_, ?_⟩
    · simp [hlog]
    · simp [mkLogEntry]
    · intro hcontra
      rcases h with hc | hc
      · exact absurd hc hcontra.1
      · exact absurd hc hcontra.2
    · intro _
      rfl
    · rfl

/-- Witness for C7 at a concrete explicit-center request. -/
theorem C7_witness :
    ((("CENTER_7" : String) ≠ "" ∧ ("CENTER_7" : String) ≠ "null") ∧
     (⟨false, false, false, false, false⟩ : DbEffects).bookingInsertFails = false ∧
     (⟨false, false, false, false, false⟩ : DbEffects).logInsertFails = false) ∧
    (∃ fid auto,
      (handleBooking ⟨"CAR_7", "CC7", "PENDING", ⟨true, "CENTER_7", "2025-01-07T10:00:00Z"⟩⟩
        ⟨[], [], []⟩ ⟨false, false, false, false, false⟩ "20250101" "TS" 7).state.logs
        = [] ++ [mkLogEntry ⟨"CAR_7", "CC7", "PENDING", ⟨true, "CENTER_7", "2025-01-07T10:00:00Z"⟩⟩
            fid auto (mkLogId "20250101" 7) "TS"] ∧
      (mkLogEntry ⟨"CAR_7", "CC7", "PENDING", ⟨true, "CENTER_7", "2025-01-07T10:00:00Z"⟩⟩
          fid auto (mkLogId "20250101" 7) "TS").data.action
        ∈ (["CREATED", "AUTO_ASSIGNED_CREATED", "UPDATED_SCHEDULE"] : List String) ∧
      ((("CENTER_7" : String) ≠ "" ∧ ("CENTER_7" : String) ≠ "null") →
        (mkLogEntry ⟨"CAR_7", "CC7", "PENDING", ⟨true, "CENTER_7", "2025-01-07T10:00:00Z"⟩⟩
          fid auto (mkLogId "20250101" 7) "TS").data.action = "CREATED") ∧
      ((("CENTER_7" : String) = "" ∨ ("CENTER_7" : String) = "null") →
        (mkLogEntry ⟨"CAR_7", "CC7", "PENDING", ⟨true, "CENTER_7", "2025-01-07T10:00:00Z"⟩⟩
          fid auto (mkLogId "20250101" 7) "TS").data.action = "AUTO_ASSIGNED_CREATED") ∧
      (handleBooking ⟨"CAR_7", "CC7", "PENDING", ⟨true, "CENTER_7", "2025-01-07T10:00:00Z"⟩⟩
        ⟨[], [], []⟩ ⟨false, false, false, false, false⟩ "20250101" "TS" 7).state.bookings
        = [] ++ [mkBookingToSave
            ⟨"CAR_7", "CC7", "PENDING", ⟨true, "CENTER_7", "2025-01-07T10:00:00Z"⟩⟩ fid]) :=
  ⟨⟨⟨by decide, by decide⟩, by decide, by decide⟩,
   C7_log_action_cases
     ⟨"CAR_7", "CC7", "PENDING", ⟨true, "CENTER_7", "2025-01-07T10:00:00Z"⟩⟩
     ⟨[], [], []⟩ ⟨false, false, false, false, false⟩ "20250101" "TS" 7
     (Or.inl ⟨by decide, by decide⟩) (by decide) (by decide)⟩

/-- C8: on the success path the response is 200 with `bookingStatus =
"Confirmed"`, `generatedLogId` equal to the log id generated for this
request in the format `LOG_<date>_<4-digit-random>`, `assignedCenter` the
final center id, and `message = "Successfully saved"`. -/
theorem C8_success_response
    (req : IncomingBookingRequest) (st : StoreState) (eff : DbEffects)
    (d t : String) (r : Nat)
    (hreach :
      (req.scheduledService.serviceCenterId ≠ "" ∧
       req.scheduledService.serviceCenterId ≠ "null") ∨
      ((req.scheduledService.serviceCenterId = "" ∨
        req.scheduledService.serviceCenterId = "null") ∧
       eff.findCentersFails = false ∧ eff.decodeCentersFails = false ∧
       st.centers.filter (fun c => c.isActive) ≠ []))
    (hins : eff.bookingInsertFails = false)
    (hr : r < 10000) :
    (∃ fid, (handleBooking req st eff d t r).response =
      .ok { bookingStatus := "Confirmed", generatedLogId := mkLogId d r,
            assignedCenter := fid, message := "Successfully saved" }) ∧
    mkLogId d r = "LOG_" ++ d ++ "_" ++ pad4 r ∧
    (pad4 r).length = 4 ∧
    ∀ ch ∈ (pad4 r).data, ch.isDigit = true := by
  refine ⟨?_, rfl, (pad4_spec hr).1, (pad4_spec hr).2⟩
  rcases hreach with ⟨h1, h2⟩ | ⟨h, hf, hd, hne⟩
  · rw [handleBooking_explicit req st eff d t r h1 h2, persistAndRespond_ok hins]
    exact ⟨_, rfl⟩
  · obtain ⟨c0, rest, hl⟩ : ∃ c0 rest, st.centers.filter (fun c => c.isActive) = c0 :: rest := by
      cases hcl : st.centers.filter (fun c => c.isActive) with
      | nil => exact absurd hcl hne
      | cons a b => exact ⟨a, b, rfl⟩
    rw [handleBooking_auto req st eff d t r h hf hd hl, persistAndRespond_ok hins]
    exact ⟨_, rfl⟩

/-- Witness for C8 at a concrete successful request. -/
theorem C8_witness :
    ((("CENTER_8" : String) ≠ "" ∧ ("CENTER_8" : String) ≠ "null") ∧
     (⟨false, false, false, false, false⟩ : DbEffects).bookingInsertFails = false ∧
     (9999 : Nat) < 10000) ∧
    ((∃ fid,
       (handleBooking ⟨"CAR_8", "CC8", "PENDING", ⟨true, "CENTER_8", "2025-01-08T10:00:00Z"⟩⟩
         ⟨[], [], []⟩ ⟨false, false, false, false, false⟩ "20250101" "TS" 9999).response =
       .ok { bookingStatus := "Confirmed", generatedLogId := mkLogId "20250101" 9999,
             assignedCenter := fid, message := "Successfully saved" }) ∧
     mkLogId "20250101" 9999 = "LOG_" ++ "20250101" ++ "_" ++ pad4 9999 ∧
     (pad4 9999).length = 4 ∧
     ∀ ch ∈ (pad4 9999).data, ch.isDigit = true) :=
  ⟨⟨⟨by decide, by decide⟩, by decide, by decide⟩,
   C8_success_response
     ⟨"CAR_8", "CC8", "PENDING", ⟨true, "CENTER_8", "2025-01-08T10:00:00Z"⟩⟩
     ⟨[], [], []⟩ ⟨false, false, false, false, false⟩ "20250101" "TS" 9999
     (Or.inl ⟨by decide, by decide⟩) (by decide) (by decide)⟩

/-- C10: a caller-supplied serviceCenterId (non-empty, not "null") is
accepted without validation: even when no active center with that id
exists in the directory, the id is persisted into the booking record and
echoed as assignedCenter, and the directory is never consulted. -/
theorem C10_unvalidated_center_persisted
    (req : IncomingBookingRequest) (st : StoreState) (eff : DbEffects)
    (d t : String) (r : Nat)
    (h1 : req.scheduledService.serviceCenterId ≠ "")
    (h2 : req.scheduledService.serviceCenterId ≠ "null")
    (hins : eff.bookingInsertFails = false)
    (_hno : ∀ c ∈ st.centers,
      ¬(c.id = req.scheduledService.serviceCenterId ∧ c.isActive = true)) :
    (handleBooking req st eff d t r).directoryQueried = false ∧
    (handleBooking req st eff d t r).state.bookings
      = st.bookings ++ [mkBookingToSave req req.scheduledService.serviceCenterId] ∧
    (mkBookingToSave req req.scheduledService.serviceCenterId).scheduledService.serviceCenterId
      = req.scheduledService.serviceCenterId ∧
    (handleBooking req st eff d t r).response =
      .ok { bookingStatus := "Confirmed", generatedLogId := mkLogId d r,
            assignedCenter := req.scheduledService.serviceCenterId,
            message := "Successfully saved" } := by
  rw [handleBooking_explicit req st eff d t r h1 h2, persistAndRespond_ok hins]
  exact ⟨rfl, rfl, rfl, rfl⟩

/-- Witness for C10 with a directory that holds no center matching the
supplied id (the only center has a different id and is inactive). -/
theorem C10_witness :
    ((("CENTER_X" : String) ≠ "" ∧ ("CENTER_X" : String) ≠ "null") ∧
     (⟨false, false, false, false, false⟩ : DbEffects).bookingInsertFails = false ∧
     (∀ c ∈ ([⟨"CENTER_Y", "Y", "L", 5, [], false⟩] : List ServiceCenterDBModel),
       ¬(c.id = "CENTER_X" ∧ c.isActive = true))) ∧
    ((handleBooking ⟨"CAR_10", "CC10", "PENDING", ⟨true, "CENTER_X", "2025-01-10T10:00:00Z"⟩⟩
        ⟨[], [], [⟨"CENTER_Y", "Y", "L", 5, [], false⟩]⟩
        ⟨false, false, false, false, false⟩ "20250101" "TS" 7).directoryQueried = false ∧
     (handleBooking ⟨"CAR_10", "CC10", "PENDING", ⟨true, "CENTER_X", "2025-01-10T10:00:00Z"⟩⟩
        ⟨[], [], [⟨"CENTER_Y", "Y", "L", 5, [], false⟩]⟩
        ⟨false, false, false, false, false⟩ "20250101" "TS" 7).state.bookings
       = [] ++ [mkBookingToSave
           ⟨"CAR_10", "CC10", "PENDING", ⟨true, "CENTER_X", "2025-01-10T10:00:00Z"⟩⟩ "CENTER_X"] ∧
     (mkBookingToSave ⟨"CAR_10", "CC10", "PENDING", ⟨true, "CENTER_X", "2025-01-10T10:00:00Z"⟩⟩
         "CENTER_X").scheduledService.serviceCenterId = "CENTER_X" ∧
     (handleBooking ⟨"CAR_10", "CC10", "PENDING", ⟨true, "CENTER_X", "2025-01-10T10:00:00Z"⟩⟩
        ⟨[], [], [⟨"CENTER_Y", "Y", "L", 5, [], false⟩]⟩
        ⟨false, false, false, false, false⟩ "20250101" "TS" 7).response =
       .ok { bookingStatus := "Confirmed", generatedLogId := mkLogId "20250101" 7,
             assignedCenter := "CENTER_X", message := "Successfully saved" }) :=
  ⟨⟨⟨by decide, by decide⟩, by decide, by decide⟩,
   C10_unvalidated_center_persisted
     ⟨"CAR_10", "CC10", "PENDING", ⟨true, "CENTER_X", "2025-01-10T10:00:00Z"⟩⟩
     ⟨[], [], [⟨"CENTER_Y", "Y", "L", 5, [], false⟩]⟩
     ⟨false, false, false, false, false⟩ "20250101" "TS" 7
     (by decide) (by decide) (by decide) (by decide)⟩

/-- C1 counterexample: the booking store already holds a record for
vehicle CAR_1 with isScheduled = true, yet a new request for CAR_1 writes
to the store (a second record appears) and the response says
"Successfully saved", not "already booked". -/
theorem C1_counterexample :
    (handleBooking ⟨"CAR_1", "CC_NEW", "PENDING", ⟨true, "CENTER_7", "2025-02-01T10:00:00Z"⟩⟩
       ⟨[⟨"CAR_1", "CC_OLD", "Scheduled", ⟨true, "CENTER_1", "2024-12-01T00:00:00Z"⟩,
          "USR_CAR_1"⟩], [], []⟩
       ⟨false, false, false, false, false⟩ "20250101" "TS" 7).state.bookings ≠
      [⟨"CAR_1", "CC_OLD", "Scheduled", ⟨true, "CENTER_1", "2024-12-01T00:00:00Z"⟩,
        "USR_CAR_1"⟩] ∧
    (handleBooking ⟨"CAR_1", "CC_NEW", "PENDING", ⟨true, "CENTER_7", "2025-02-01T10:00:00Z"⟩⟩
       ⟨[⟨"CAR_1", "CC_OLD", "Scheduled", ⟨true, "CENTER_1", "2024-12-01T00:00:00Z"⟩,
          "USR_CAR_1"⟩], [], []⟩
       ⟨false, false, false, false, false⟩ "20250101" "TS" 7).response =
      .ok ⟨"Confirmed", "LOG_20250101_0007", "CENTER_7", "Successfully saved"⟩ := by
  decide

/-- C1 (amended): no already-booked check exists. Even when the booking
store holds a record for the request's vehicleId with isScheduled = true,
an explicit-center request whose insert succeeds appends a further record
(the store for that vehicle changes) and responds 200 with message
"Successfully saved"; no "already booked" response is ever produced. -/
theorem C1_no_already_booked_check
    (req : IncomingBookingRequest) (st : StoreState) (eff : DbEffects)
    (d t : String) (r : Nat)
    (_hsched : ∃ b ∈ st.bookings,
      b.vehicleId = req.vehicleId ∧ b.scheduledService.isScheduled = true)
    (h1 : req.scheduledService.serviceCenterId ≠ "")
    (h2 : req.scheduledService.serviceCenterId ≠ "null")
    (hins : eff.bookingInsertFails = false) :
    (handleBooking req st eff d t r).state.bookings
      = st.bookings ++ [mkBookingToSave req req.scheduledService.serviceCenterId] ∧
    (handleBooking req st eff d t r).state.bookings ≠ st.bookings ∧
    (handleBooking req st eff d t r).response =
      .ok { bookingStatus := "Confirmed", generatedLogId := mkLogId d r,
            assignedCenter := req.scheduledService.serviceCenterId,
            message := "Successfully saved" } := by
  rw [handleBooking_explicit req st eff d t r h1 h2, persistAndRespond_ok hins]
  refine ⟨rfl, ?_, rfl⟩
  intro hcontra
  have hlen := congrArg List.length hcontra
  simp at hlen

/-- Witness for the amended C1 at a concrete already-scheduled store. -/
theorem C1_witness :
    ((∃ b ∈ ([⟨"CAR_1", "CC_OLD", "Scheduled", ⟨true, "CENTER_1", "2024-12-01T00:00:00Z"⟩,
        "USR_CAR_1"⟩] : List DBBooking),
       b.vehicleId = "CAR_1" ∧ b.scheduledService.isScheduled = true) ∧
     ("CENTER_7" : String) ≠ "" ∧ ("CENTER_7" : String) ≠ "null" ∧
     (⟨false, false, false, false, false⟩ : DbEffects).bookingInsertFails = false) ∧
    ((handleBooking ⟨"CAR_1", "CC_NEW2", "PENDING", ⟨true, "CENTER_7", "2025-02-02T10:00:00Z"⟩⟩
        ⟨[⟨"CAR_1", "CC_OLD", "Scheduled", ⟨true, "CENTER_1", "2024-12-01T00:00:00Z"⟩,
           "USR_CAR_1"⟩], [], []⟩
        ⟨false, false, false, false, false⟩ "20250101" "TS" 8).state.bookings
       = [⟨"CAR_1", "CC_OLD", "Scheduled", ⟨true, "CENTER_1", "2024-12-01T00:00:00Z"⟩,
           "USR_CAR_1"⟩] ++
         [mkBookingToSave
           ⟨"CAR_1", "CC_NEW2", "PENDING", ⟨true, "CENTER_7", "2025-02-02T10:00:00Z"⟩⟩
           "CENTER_7"] ∧
     (handleBooking ⟨"CAR_1", "CC_NEW2", "PENDING", ⟨true, "CENTER_7", "2025-02-02T10:00:00Z"⟩⟩
        ⟨[⟨"CAR_1", "CC_OLD", "Scheduled", ⟨true, "CENTER_1", "2024-12-01T00:00:00Z"⟩,
           "USR_CAR_1"⟩], [], []⟩
        ⟨false, false, false, false, false⟩ "20250101" "TS" 8).state.bookings
       ≠ [⟨"CAR_1", "CC_OLD", "Scheduled", ⟨true, "CENTER_1", "2024-12-01T00:00:00Z"⟩,
           "USR_CAR_1"⟩] ∧
     (handleBooking ⟨"CAR_1", "CC_NEW2", "PENDING", ⟨true, "CENTER_7", "2025-02-02T10:00:00Z"⟩⟩
        ⟨[⟨"CAR_1", "CC_OLD", "Scheduled", ⟨true, "CENTER_1", "2024-12-01T00:00:00Z"⟩,
           "USR_CAR_1"⟩], [], []⟩
        ⟨false, false, false, false, false⟩ "20250101" "TS" 8).response =
       .ok { bookingStatus := "Confirmed", generatedLogId := mkLogId "20250101" 8,
             assignedCenter := "CENTER_7", message := "Successfully saved" }) :=
  ⟨⟨by decide, by decide, by decide, by decide⟩,
   C1_no_already_booked_check
     ⟨"CAR_1", "CC_NEW2", "PENDING", ⟨true, "CENTER_7", "2025-02-02T10:00:00Z"⟩⟩
     ⟨[⟨"CAR_1", "CC_OLD", "Scheduled", ⟨true, "CENTER_1", "2024-12-01T00:00:00Z"⟩,
        "USR_CAR_1"⟩], [], []⟩
     ⟨false, false, false, false, false⟩ "20250101" "TS" 8
     (by decide) (by decide) (by decide) (by decide)⟩

/-- C2 counterexample: with an empty-id candidate of load 0 and a
candidate "X" of load 1, the spec's LeastLoad (skip empty ids, then take
the global minimum) picks "X", but the code's selection picks the
empty-id candidate. -/
theorem C2_counterexample :
    (specLeastLoad [⟨"", "N1", "L", 5, [], true⟩,
                    ⟨"X", "N2", "L", 5, [()], true⟩]).map (fun c => c.id) = some "X" ∧
    (selectCenter [⟨"", "N1", "L", 5, [], true⟩,
                   ⟨"X", "N2", "L", 5, [()], true⟩]).map (fun c => c.id) = some "" ∧
    ("" : String) ≠ "X" := by
  decide

/-- C2 (amended): when some candidate has load below both its capacity
and the 999999 sentinel, the selection returns the first candidate
attaining the minimal load among all such candidates — candidates whose
id is empty are not skipped, and candidates at or over capacity are
excluded from the primary minimum. -/
theorem C2_selection_minimality
    (l : List ServiceCenterDBModel)
    (h : ∃ e ∈ l, centerLoad e < 999999 ∧ (centerLoad e : Int) < e.capacity) :
    ∃ c, selectCenter l = some c ∧ c ∈ l ∧
      centerLoad c < 999999 ∧ (centerLoad c : Int) < c.capacity ∧
      (∀ e ∈ l, centerLoad e < 999999 → (centerLoad e : Int) < e.capacity →
        centerLoad c ≤ centerLoad e) ∧
      ∃ l1 l2, l = l1 ++ c :: l2 ∧
        ∀ e ∈ l1, centerLoad e < 999999 → (centerLoad e : Int) < e.capacity →
          centerLoad c < centerLoad e := by
  cases l with
  | nil =>
    obtain ⟨e, he, _⟩ := h
    simp at he
  | cons c0 rest =>
    have hfmb : firstMinBelow 999999 (c0 :: rest) ≠ none := by
      rw [Ne, firstMinBelow_eq_none]
      intro hall
      obtain ⟨e, he, hl1, hl2⟩ := h
      exact hall e he ⟨hl1, hl2⟩
    cases hv : firstMinBelow 999999 (c0 :: rest) with
    | none => exact absurd hv hfmb
    | some c =>
      have hsel : selectCenterNonempty c0 rest = c :=
        selectCenterNonempty_primary (by rw [primaryScanGo_none_eq, hv])
      obtain ⟨hmem, hlt, hcap⟩ := firstMinBelow_mem hv
      obtain ⟨l1, l2, heq, hfirst⟩ := firstMinBelow_first hv
      exact ⟨c, by simp [selectCenter, hsel], hmem, hlt, hcap,
        firstMinBelow_min hv, l1, l2, heq, hfirst⟩

/-- Witness for the amended C2 at a concrete two-candidate list. -/
theorem C2_witness :
    (∃ e ∈ ([⟨"A", "N", "L", 5, [(), ()], true⟩,
             ⟨"B", "N", "L", 5, [()], true⟩] : List ServiceCenterDBModel),
      centerLoad e < 999999 ∧ (centerLoad e : Int) < e.capacity) ∧
    (∃ c, selectCenter ([⟨"A", "N", "L", 5, [(), ()], true⟩,
                         ⟨"B", "N", "L", 5, [()], true⟩] : List ServiceCenterDBModel)
            = some c ∧
      c ∈ ([⟨"A", "N", "L", 5, [(), ()], true⟩,
            ⟨"B", "N", "L", 5, [()], true⟩] : List ServiceCenterDBModel) ∧
      centerLoad c < 999999 ∧ (centerLoad c : Int) < c.capacity ∧
      (∀ e ∈ ([⟨"A", "N", "L", 5, [(), ()], true⟩,
               ⟨"B", "N", "L", 5, [()], true⟩] : List ServiceCenterDBModel),
        centerLoad e < 999999 → (centerLoad e : Int) < e.capacity →
        centerLoad c ≤ centerLoad e) ∧
      ∃ l1 l2, ([⟨"A", "N", "L", 5, [(), ()], true⟩,
                 ⟨"B", "N", "L", 5, [()], true⟩] : List ServiceCenterDBModel)
          = l1 ++ c :: l2 ∧
        ∀ e ∈ l1, centerLoad e < 999999 → (centerLoad e : Int) < e.capacity →
          centerLoad c < centerLoad e) :=
  ⟨by decide,
   C2_selection_minimality
     ([⟨"A", "N", "L", 5, [(), ()], true⟩,
       ⟨"B", "N", "L", 5, [()], true⟩] : List ServiceCenterDBModel)
     (by decide)⟩

/-- C4 counterexample: a single active candidate whose id is empty is not
treated as ineligible: the handler selects it, writes a booking, and
responds 200 — not 404 with no writes. -/
theorem C4_counterexample :
    (handleBooking ⟨"CAR_4", "CC4", "P", ⟨true, "", "2025-01-03T00:00:00Z"⟩⟩
       ⟨[], [], [⟨"", "OnlyCenter", "L", 5, [], true⟩]⟩
       ⟨false, false, false, false, false⟩ "20250101" "TS" 3).response =
      .ok ⟨"Confirmed", "LOG_20250101_0003", "", "Successfully saved"⟩ ∧
    (handleBooking ⟨"CAR_4", "CC4", "P", ⟨true, "", "2025-01-03T00:00:00Z"⟩⟩
       ⟨[], [], [⟨"", "OnlyCenter", "L", 5, [], true⟩]⟩
       ⟨false, false, false, false, false⟩ "20250101" "TS" 3).state.bookings ≠ [] := by
  decide

/-- C4 (amended): when the directory query succeeds but returns no active
center, the selection yields no candidate and the handler responds 404
with the store unchanged; however a candidate whose id is empty is not
ineligible — any non-empty active list produces a selection and a write
(see the counterexample). -/
theorem C4_no_active_centers_404
    (req : IncomingBookingRequest) (st : StoreState) (eff : DbEffects)
    (d t : String) (r : Nat)
    (h : req.scheduledService.serviceCenterId = "" ∨
         req.scheduledService.serviceCenterId = "null")
    (hf : eff.findCentersFails = false) (hd : eff.decodeCentersFails = false)
    (hl : st.centers.filter (fun c => c.isActive) = []) :
    selectCenter (st.centers.filter (fun c => c.isActive)) = none ∧
    (handleBooking req st eff d t r).response =
      .notFound "No active service centers found in database" ∧
    (handleBooking req st eff d t r).state = st := by
  rw [handleBooking_auto_empty req st eff d t r h hf hd hl, hl]
  exact ⟨rfl, rfl, rfl⟩

/-- Witness for the amended C4: the only center is inactive. -/
theorem C4_witness :
    ((("" : String) = "" ∨ ("" : String) = "null") ∧
     (⟨false, false, false, false, false⟩ : DbEffects).findCentersFails = false ∧
     (⟨false, false, false, false, false⟩ : DbEffects).decodeCentersFails = false ∧
     ([⟨"CENTER_OFF", "Off", "L", 5, [], false⟩] :
        List ServiceCenterDBModel).filter (fun c => c.isActive) = []) ∧
    (selectCenter (([⟨"CENTER_OFF", "Off", "L", 5, [], false⟩] :
        List ServiceCenterDBModel).filter (fun c => c.isActive)) = none ∧
     (handleBooking ⟨"CAR_5", "CC5", "P", ⟨true, "", "2025-01-05T00:00:00Z"⟩⟩
        ⟨[], [], [⟨"CENTER_OFF", "Off", "L", 5, [], false⟩]⟩
        ⟨false, false, false, false, false⟩ "20250101" "TS" 4).response =
       .notFound "No active service centers found in database" ∧
     (handleBooking ⟨"CAR_5", "CC5", "P", ⟨true, "", "2025-01-05T00:00:00Z"⟩⟩
        ⟨[], [], [⟨"CENTER_OFF", "Off", "L", 5, [], false⟩]⟩
        ⟨false, false, false, false, false⟩ "20250101" "TS" 4).state =
       ⟨[], [], [⟨"CENTER_OFF", "Off", "L", 5, [], false⟩]⟩) :=
  ⟨⟨Or.inl rfl, by decide, by decide, by decide⟩,
   C4_no_active_centers_404
     ⟨"CAR_5", "CC5", "P", ⟨true, "", "2025-01-05T00:00:00Z"⟩⟩
     ⟨[], [], [⟨"CENTER_OFF", "Off", "L", 5, [], false⟩]⟩
     ⟨false, false, false, false, false⟩ "20250101" "TS" 4
     (Or.inl rfl) (by decide) (by decide) (by decide)⟩

/-- Center A of the C9 counterexample: 1000000 bookings, capacity
2000000 — strictly under capacity but at or above the code's sentinel. -/
def bigCenterA : ServiceCenterDBModel :=
  ⟨"A", "NA", "L", 2000000, List.replicate 1000000 (), true⟩

/-- Center B of the C9 counterexample: 999999 bookings at capacity
999999 — over capacity, but the global minimum load. -/
def bigCenterB : ServiceCenterDBModel :=
  ⟨"B", "NB", "L", 999999, List.replicate 999999 (), true⟩

/-- C9 counterexample: center A has 1000000 bookings with capacity
2000000 (under capacity), center B has 999999 bookings at capacity
999999. The claimed primary rule (first minimal-load center among those
with load < capacity) picks A, but the code's primary loop never accepts
a load at or above its hard-coded sentinel 999999, so the fallback runs
and picks B instead. -/
theorem C9_counterexample :
    (specPrimaryUnderCap [bigCenterA, bigCenterB]).map (fun c => c.id) = some "A" ∧
    (selectCenter [bigCenterA, bigCenterB]).map (fun c => c.id) = some "B" := by
  have hA : centerLoad bigCenterA = 1000000 := List.length_replicate _ _
  have hB : centerLoad bigCenterB = 999999 := List.length_replicate _ _
  have hscan : primaryScanGo [bigCenterA, bigCenterB] none 999999 = none := by
    rw [primaryScanGo, if_neg (fun hc => absurd (hA ▸ hc.1) (by omega)),
        primaryScanGo, if_neg (fun hc => absurd (hB ▸ hc.1) (by omega)),
        primaryScanGo]
  have hfall : fallbackScanGo [bigCenterB] bigCenterA = bigCenterB := by
    rw [fallbackScanGo, if_pos (by rw [hA, hB]; omega), fallbackScanGo]
  constructor
  · have hfA : decide ((centerLoad bigCenterA : Int) < bigCenterA.capacity) = true := by
      rw [hA]; rfl
    have hfB : decide ((centerLoad bigCenterB : Int) < bigCenterB.capacity) = false := by
      rw [hB]; rfl
    rw [specPrimaryUnderCap]
    simp only [List.filter_cons, List.filter_nil, hfA, hfB, if_true, if_false]
    rfl
  · rw [selectCenter, selectCenterNonempty_fallback hscan, hfall]
    rfl

/-- C9 (amended): for every non-empty list of active centers the
auto-assignment path never responds 404 (the no-selection branch is
unreachable, selection is total on non-empty lists), and when every
center is at or over capacity the fallback picks the first center with
the absolute minimum load; the primary loop picks the first minimal-load
center among those with load < capacity only when that minimum is also
below the 999999 sentinel. -/
theorem C9_totality_and_fallback :
    (∀ (req : IncomingBookingRequest) (st : StoreState) (eff : DbEffects)
       (d t : String) (r : Nat),
      (req.scheduledService.serviceCenterId = "" ∨
       req.scheduledService.serviceCenterId = "null") →
      eff.findCentersFails = false → eff.decodeCentersFails = false →
      st.centers.filter (fun c => c.isActive) ≠ [] →
      ∀ e, (handleBooking req st eff d t r).response ≠ .notFound e) ∧
    (∀ (c0 : ServiceCenterDBModel) (rest : List ServiceCenterDBModel),
      selectCenter (c0 :: rest) = some (selectCenterNonempty c0 rest)) ∧
    (∀ (c0 : ServiceCenterDBModel) (rest : List ServiceCenterDBModel),
      (∀ e ∈ c0 :: rest, ¬((centerLoad e : Int) < e.capacity)) →
      selectCenterNonempty c0 rest ∈ c0 :: rest ∧
      (∀ e ∈ c0 :: rest, centerLoad (selectCenterNonempty c0 rest) ≤ centerLoad e) ∧
      ∃ l1 l2, c0 :: rest = l1 ++ selectCenterNonempty c0 rest :: l2 ∧
        ∀ e ∈ l1, centerLoad (selectCenterNonempty c0 rest) < centerLoad e) := by
  refine ⟨?_, fun c0 rest => rfl, ?_⟩
  · intro req st eff d t r h hf hd hne e
    obtain ⟨c0, rest, hl⟩ : ∃ c0 rest, st.centers.filter (fun c => c.isActive) = c0 :: rest := by
      cases hcl : st.centers.filter (fun c => c.isActive) with
      | nil => exact absurd hcl hne
      | cons a b => exact ⟨a, b, rfl⟩
    rw [handleBooking_auto req st eff d t r h hf hd hl, persistAndRespond_response]
    split
    · exact fun hc => HttpResponse.noConfusion hc
    · exact fun hc => HttpResponse.noConfusion hc
  · intro c0 rest hcap
    have hnone : primaryScanGo (c0 :: rest) none 999999 = none := by
      rw [primaryScanGo_none_eq, firstMinBelow_eq_none]
      intro c hc hand
      exact hcap c hc hand.2
    rw [selectCenterNonempty_fallback hnone]
    obtain ⟨hmem, hmin, l1, l2, heq, hfirst⟩ := fallbackScanGo_spec rest c0
    exact ⟨hmem, hmin, l1, l2, heq, hfirst⟩

/-- Witness for the amended C9: a single zero-capacity center is at
capacity, so the fallback picks it. -/
theorem C9_witness :
    (∀ e ∈ ([⟨"Z", "N", "L", 0, [], true⟩] : List ServiceCenterDBModel),
      ¬((centerLoad e : Int) < e.capacity)) ∧
    (selectCenterNonempty ⟨"Z", "N", "L", 0, [], true⟩ []
        ∈ ([⟨"Z", "N", "L", 0, [], true⟩] : List ServiceCenterDBModel) ∧
     (∀ e ∈ ([⟨"Z", "N", "L", 0, [], true⟩] : List ServiceCenterDBModel),
       centerLoad (selectCenterNonempty ⟨"Z", "N", "L", 0, [], true⟩ []) ≤ centerLoad e) ∧
     ∃ l1 l2, ([⟨"Z", "N", "L", 0, [], true⟩] : List ServiceCenterDBModel)
         = l1 ++ selectCenterNonempty ⟨"Z", "N", "L", 0, [], true⟩ [] :: l2 ∧
       ∀ e ∈ l1, centerLoad (selectCenterNonempty ⟨"Z", "N", "L", 0, [], true⟩ [])
         < centerLoad e) :=
  ⟨by decide,
   C9_totality_and_fallback.2.2 ⟨"Z", "N", "L", 0, [], true⟩ [] (by decide)⟩

end BookingService

